import Mathlib

/-!
# Go-Lambda-Cloudwatch: the metric reduction and the Lambda handler

A shallow embedding of `main.go`.

* `float64` is embedded as `Float64`: exact rationals for the finite values, plus
  the IEEE-754 special values `NaN`, `+Inf`, `-Inf`.  Rounding and overflow of finite
  values are not modelled (finite arithmetic is exact); signed zeros are identified.
* `time.Time` is embedded as the signed number of nanoseconds since the zero value
  `time.Time{}`, so the zero value is `0`.
* The pointer fields of `cloudwatch.Datapoint` are `Option`s; dereferencing `nil`
  panics.
* The outside world (`time.Now`, `external.LoadDefaultAWSConfig`, `req.Send`) is a
  `World`; the run threads a `RunState` that counts clock readings and logs every
  request sent to the backend.
* The diagnostic `fmt.Println` / `fmt.Printf` lines have no effect on the returned
  values and are left out.
-/

namespace GoLambdaCloudwatch

/-! ## float64 -/

/-- Go `float64`, with exact finite arithmetic. -/
inductive Float64 where
  | fin (q : ℚ)
  | posInf
  | negInf
  | NaN
deriving DecidableEq, Repr

namespace Float64

/-- The zero value `0.0`. -/
def zero : Float64 := fin 0

/-- IEEE-754 addition `x + y`. -/
def add : Float64 → Float64 → Float64
  | fin a, fin b => fin (a + b)
  | NaN, _ => NaN
  | _, NaN => NaN
  | posInf, negInf => NaN
  | negInf, posInf => NaN
  | posInf, _ => posInf
  | _, posInf => posInf
  | negInf, _ => negInf
  | _, negInf => negInf

/-- IEEE-754 comparison `x > y`; every comparison with `NaN` is false. -/
def gt : Float64 → Float64 → Bool
  | fin a, fin b => decide (b < a)
  | NaN, _ => false
  | _, NaN => false
  | posInf, posInf => false
  | posInf, _ => true
  | _, posInf => false
  | negInf, _ => false
  | _, negInf => true

/-- IEEE-754 division `x / y`.  A finite zero divisor is `+0` (the only zero divisor
the program produces is `float64(0)`). -/
def div : Float64 → Float64 → Float64
  | NaN, _ => NaN
  | _, NaN => NaN
  | fin a, fin b =>
    if b = 0 then
      if a = 0 then NaN else if 0 < a then posInf else negInf
    else fin (a / b)
  | fin _, posInf => fin 0
  | fin _, negInf => fin 0
  | posInf, fin b => if 0 ≤ b then posInf else negInf
  | negInf, fin b => if 0 ≤ b then negInf else posInf
  | posInf, posInf => NaN
  | posInf, negInf => NaN
  | negInf, posInf => NaN
  | negInf, negInf => NaN

/-- The conversion `float64(n)` of a slice length. -/
def ofLen (n : Nat) : Float64 := fin (n : ℚ)

/-- Whether the value is an ordinary number (neither `NaN` nor an infinity). -/
def isFinite : Float64 → Bool
  | fin _ => true
  | _ => false

end Float64

/-! ## Data model -/

/-- Go `time.Time`: nanoseconds since the zero value `time.Time{}`. -/
abbrev Time := Int

/-- The zero value `time.Time{}`. -/
def zeroTime : Time := 0

/-- Go `type cpuMax struct`. -/
structure cpuMax where
  Perc : Float64
  Time : Time
  Avg : Float64
deriving DecidableEq, Repr

/-- Go `type netPeak struct`. -/
structure netPeak where
  Max : Float64
  Time : Time
  Total : Float64
deriving DecidableEq, Repr

/-- Go `type body struct`. -/
structure body where
  CPU : cpuMax
  Net : netPeak
deriving DecidableEq, Repr

/-- Go `type lambdaRes struct`. -/
structure lambdaRes where
  Body : String
  StatusCode : Int
deriving DecidableEq, Repr

/-- The zero value `cpuMax{}`. -/
def cpuMax.zero : cpuMax := { Perc := Float64.zero, Time := zeroTime, Avg := Float64.zero }

/-- The zero value `netPeak{}`. -/
def netPeak.zero : netPeak := { Max := Float64.zero, Time := zeroTime, Total := Float64.zero }

/-- The zero value `lambdaRes{}`. -/
def lambdaRes.zero : lambdaRes := { Body := "", StatusCode := 0 }

/-- The fields of `cloudwatch.Datapoint` that the program reads; each is a pointer. -/
structure Datapoint where
  Average : Option Float64
  Maximum : Option Float64
  Timestamp : Option Time
deriving DecidableEq, Repr

/-- The result of running Go code that may panic. -/
inductive Outcome (α : Type) where
  | done (a : α)
  | panicked (msg : String)
deriving DecidableEq, Repr

/-- The run-time panic raised by dereferencing a nil pointer. -/
def nilDeref : String := "runtime error: invalid memory address or nil pointer dereference"

/-! ## The reductions inside `getCPU` and `getNET` -/

/-- The `for i := range resp.Datapoints` loop of `getCPU` (lines 71-77), on the state
`(gavg, max)`. -/
def getCPULoop : List Datapoint → Float64 × cpuMax → Outcome (Float64 × cpuMax)
  | [], st => Outcome.done st
  | dp :: rest, (gavg, max) =>
    match dp.Average with
    | none => Outcome.panicked nilDeref
    | some a =>
      let gavg := Float64.add gavg a
      if Float64.gt a max.Perc then
        match dp.Timestamp with
        | none => Outcome.panicked nilDeref
        | some t => getCPULoop rest (gavg, { max with Perc := a, Time := t })
      else getCPULoop rest (gavg, max)

/-- Lines 68-79 of `getCPU`: `gavg := 0.0`, `max := cpuMax{}`, the loop, and
`max.Avg = gavg / float64(len(resp.Datapoints))`. -/
def getCPUReduce (dps : List Datapoint) : Outcome cpuMax :=
  match getCPULoop dps (Float64.zero, cpuMax.zero) with
  | Outcome.done (gavg, max) =>
    Outcome.done { max with Avg := Float64.div gavg (Float64.ofLen dps.length) }
  | Outcome.panicked msg => Outcome.panicked msg

/-- The `for i := range resp.Datapoints` loop of `getNET` (lines 115-121). -/
def getNETLoop : List Datapoint → netPeak → Outcome netPeak
  | [], max => Outcome.done max
  | dp :: rest, max =>
    match dp.Maximum with
    | none => Outcome.panicked nilDeref
    | some m =>
      let max := { max with Total := Float64.add max.Total m }
      if Float64.gt m max.Max then
        match dp.Timestamp with
        | none => Outcome.panicked nilDeref
        | some t => getNETLoop rest { max with Max := m, Time := t }
      else getNETLoop rest max

/-- Lines 113-121 of `getNET`: `max := netPeak{}` and the loop. -/
def getNETReduce (dps : List Datapoint) : Outcome netPeak :=
  getNETLoop dps netPeak.zero

/-! ## Samples -/

/-- A timestamped numeric sample, as the backend returns it. -/
structure Sample where
  timestamp : Time
  value : ℚ
deriving DecidableEq, Repr

/-- The datapoint the backend returns for a sample of an `Average` statistic. -/
def Sample.cpuDatapoint (s : Sample) : Datapoint :=
  { Average := some (Float64.fin s.value), Maximum := none, Timestamp := some s.timestamp }

/-- The datapoint the backend returns for a sample of a `Maximum` statistic. -/
def Sample.netDatapoint (s : Sample) : Datapoint :=
  { Average := none, Maximum := some (Float64.fin s.value), Timestamp := some s.timestamp }

/-! ## The outside world -/

/-- Go `cloudwatch.Dimension`. -/
structure Dimension where
  Name : String
  Value : String
deriving DecidableEq, Repr

/-- Go `cloudwatch.GetMetricStatisticsInput`, the fields the program fills in. -/
structure GetMetricStatisticsInput where
  Namespace : String
  MetricName : String
  Dimensions : List Dimension
  StartTime : Time
  EndTime : Time
  Period : Int
  Statistics : List String
  Unit : String
deriving DecidableEq, Repr

/-- Go `aws.Config`, the field the program writes. -/
structure Config where
  Region : String
deriving DecidableEq, Repr

/-- Go `cloudwatch.Client`, as built by `cloudwatch.New(cfg)`. -/
structure Client where
  cfg : Config
deriving DecidableEq, Repr

/-- Everything the program reads from outside: the clock (`now k` is what the `k`-th
call of `time.Now()` returns), the configuration loader, and the backend, whose answer
may depend on the requests it has already received.  Errors are their messages. -/
structure World where
  now : Nat → Time
  loadDefaultAWSConfig : Except String Config
  send : List GetMetricStatisticsInput → Client → GetMetricStatisticsInput →
    Except String (List Datapoint)

/-- What a run has done to the world so far. -/
structure RunState where
  clockReads : Nat
  sent : List GetMetricStatisticsInput
deriving DecidableEq, Repr

/-- The state in which an invocation starts. -/
def RunState.init : RunState := { clockReads := 0, sent := [] }

/-- One call of `time.Now()`. -/
def timeNow (w : World) (s : RunState) : Time × RunState :=
  (w.now s.clockReads, { s with clockReads := s.clockReads + 1 })

/-- The duration `time.Hour * 24 * 3`, in nanoseconds. -/
def threeDays : Int := 3600000000000 * 24 * 3

/-- The request built at lines 44-60 of `getCPU`. -/
def cpuInput (t1 t2 : Time) : GetMetricStatisticsInput :=
  { Namespace := "AWS/EC2"
    MetricName := "CPUUtilization"
    Dimensions := [{ Name := "AutoScalingGroupName", Value := "managers-ag" }]
    StartTime := t1 + -threeDays
    EndTime := t2
    Period := 300
    Statistics := ["Average"]
    Unit := "Percent" }

/-- The request built at lines 89-105 of `getNET`. -/
def netInput (t1 t2 : Time) : GetMetricStatisticsInput :=
  { Namespace := "AWS/EC2"
    MetricName := "NetworkIn"
    Dimensions := [{ Name := "AutoScalingGroupName", Value := "managers-ag" }]
    StartTime := t1 + -threeDays
    EndTime := t2
    Period := 300
    Statistics := ["Maximum"]
    Unit := "Bytes" }

/-- One call of `req.Send(context.Background())`: the request is logged in the run
state and the backend answers. -/
def sendRequest (w : World) (client : Client) (input : GetMetricStatisticsInput)
    (s : RunState) : Except String (List Datapoint) × RunState :=
  (w.send s.sent client input, { s with sent := s.sent ++ [input] })

/-- Go `func getCPU(client *cloudwatch.Client) cpuMax`. -/
def getCPU (w : World) (client : Client) (s : RunState) : Outcome cpuMax × RunState :=
  let (t1, s) := timeNow w s
  let (t2, s) := timeNow w s
  match sendRequest w client (cpuInput t1 t2) s with
  | (Except.error err, s) => (Outcome.panicked ("failed, " ++ err), s)
  | (Except.ok datapoints, s) => (getCPUReduce datapoints, s)

/-- Go `func getNET(client *cloudwatch.Client) netPeak`. -/
def getNET (w : World) (client : Client) (s : RunState) : Outcome netPeak × RunState :=
  let (t1, s) := timeNow w s
  let (t2, s) := timeNow w s
  match sendRequest w client (netInput t1 t2) s with
  | (Except.error err, s) => (Outcome.panicked ("failed, " ++ err), s)
  | (Except.ok datapoints, s) => (getNETReduce datapoints, s)

/-! ## `json.Marshal` of the response payload -/

/-- The two leaf encoders of `encoding/json` that the payload needs: the text of a
finite `float64`, and `time.Time.MarshalJSON` (the quoted RFC 3339 text, which fails for
a year outside 0..9999). -/
structure JSONEncoders where
  float : ℚ → String
  time : Time → Option String

/-- The `float64` encoder of `encoding/json`: `NaN` and the infinities are rejected with
an `UnsupportedValueError`. -/
def marshalFloat (enc : JSONEncoders) : Float64 → Option String
  | Float64.fin q => some (enc.float q)
  | _ => none

/-- The text of `json.Marshal` on a `cpuMax`: fields in declaration order, under
their tags. -/
def marshalCpuMax (enc : JSONEncoders) (c : cpuMax) : Option String :=
  match marshalFloat enc c.Perc, enc.time c.Time, marshalFloat enc c.Avg with
  | some p, some t, some a =>
    some ("\x7b\"perc\":" ++ p ++ ",\"time\":" ++ t ++ ",\"avg\":" ++ a ++ "\x7d")
  | _, _, _ => none

/-- The text of `json.Marshal` on a `netPeak`. -/
def marshalNetPeak (enc : JSONEncoders) (n : netPeak) : Option String :=
  match marshalFloat enc n.Max, enc.time n.Time, marshalFloat enc n.Total with
  | some m, some t, some tot =>
    some ("\x7b\"max\":" ++ m ++ ",\"time\":" ++ t ++ ",\"total\":" ++ tot ++ "\x7d")
  | _, _, _ => none

/-- The text of `json.Marshal` on a `body`; `none` when it returns an error. -/
def jsonMarshal (enc : JSONEncoders) (b : body) : Option String :=
  match marshalCpuMax enc b.CPU, marshalNetPeak enc b.Net with
  | some c, some n => some ("\x7b\"cpu\":" ++ c ++ ",\"net\":" ++ n ++ "\x7d")
  | _, _ => none

/-! ## `lambdaHandler` -/

/-- Lines 173-182 of `lambdaHandler`: the payload is marshalled, the error of
`json.Marshal` is discarded (`resBytes, _ :=`, so a failure leaves `string(nil)`, the
empty string), and the response is returned with a nil error. -/
def respond (enc : JSONEncoders) (cpures : cpuMax) (netres : netPeak) :
    lambdaRes × Option String :=
  let resBytes := (jsonMarshal enc { CPU := cpures, Net := netres }).getD ""
  ({ Body := resBytes, StatusCode := 200 }, none)

/-- The region constant `endpoints.EuWest2RegionID`. -/
def EuWest2RegionID : String := "eu-west-2"

/-- Lines 138-140 of `lambdaHandler`: `cfg.Region = endpoints.EuWest2RegionID` and
`client := cloudwatch.New(cfg)`. -/
def newClient (cfg : Config) : Client :=
  { cfg := { cfg with Region := EuWest2RegionID } }

/-- Go `func lambdaHandler() (lambdaRes, error)`, with the active (sequential) block of
lines 142-148.  The result pairs what the function did (returned a response and an
error, `none` being `nil`; or panicked) with the final run state. -/
def lambdaHandler (enc : JSONEncoders) (w : World) :
    Outcome (lambdaRes × Option String) × RunState :=
  match w.loadDefaultAWSConfig with
  | Except.error err =>
    (Outcome.done (lambdaRes.zero, some ("unable to load SDK config, " ++ err)), RunState.init)
  | Except.ok cfg =>
    let client := newClient cfg
    let (_, s) := timeNow w RunState.init
    match getCPU w client s with
    | (Outcome.panicked msg, s) => (Outcome.panicked msg, s)
    | (Outcome.done cpures, s) =>
      match getNET w client s with
      | (Outcome.panicked msg, s) => (Outcome.panicked msg, s)
      | (Outcome.done netres, s) =>
        let (_, s) := timeNow w s
        (Outcome.done (respond enc cpures netres), s)

/-! ## The concurrent block (lines 152-171, inactive in the source) -/

/-- The state of the join loop: for each channel the value its goroutine has still to
hand over (`none` once it has been received), and the two result variables. -/
structure JoinState where
  cpu : Option cpuMax
  net : Option netPeak
  cpures : cpuMax
  netres : netPeak
deriving DecidableEq, Repr

/-- One `select` of lines 164-167.  A case can fire only if its channel still has a
sender; when both can, `pickCPU` says which one the scheduler lets fire.  With no sender
left the `select` blocks forever (`none`). -/
def selectStep (pickCPU : Bool) (st : JoinState) : Option JoinState :=
  match st.cpu, st.net with
  | some c, some n =>
    if pickCPU then some { st with cpu := none, cpures := c }
    else some { st with net := none, netres := n }
  | some c, none => some { st with cpu := none, cpures := c }
  | none, some n => some { st with net := none, netres := n }
  | none, none => none

/-- The loop `for i := 0; i < 2; i++` of lines 163-168, with `k` iterations still to run
and the counter at `i`. -/
def joinLoop (sched : Nat → Bool) : Nat → Nat → JoinState → Option JoinState
  | 0, _, st => some st
  | k + 1, i, st =>
    match selectStep (sched i) st with
    | some st1 => joinLoop sched k (i + 1) st1
    | none => none

/-- Lines 131-132 and 153-168 once `getCPU` has produced `c` and `getNET` has produced
`n` in their goroutines: the result variables start at their zero values and the loop
makes its two receives under the schedule `sched`. -/
def asyncJoin (sched : Nat → Bool) (c : cpuMax) (n : netPeak) : Option (cpuMax × netPeak) :=
  (joinLoop sched 2 0 { cpu := some c, net := some n, cpures := cpuMax.zero,
                         netres := netPeak.zero }).map (fun st => (st.cpures, st.netres))

/-! ## Specification-side definitions -/

/-- The running peak of a scan that starts from `(p, t)` and replaces the pair by a
sample exactly when the sample's value is strictly greater. -/
def peakScan : List Sample → ℚ × Time → ℚ × Time
  | [], st => st
  | s :: rest, (p, t) =>
    if p < s.value then peakScan rest (s.value, s.timestamp) else peakScan rest (p, t)

/-- The sum of the sample values. -/
def sumValues (samples : List Sample) : ℚ :=
  (samples.map Sample.value).sum

/-- The peak rule of the specification: the value is the maximum among the samples and
the time is the timestamp of a sample holding that value. -/
def IsPeakOf (samples : List Sample) (v : Float64) (t : Time) : Prop :=
  ∃ s ∈ samples, v = Float64.fin s.value ∧ t = s.timestamp ∧
    ∀ x ∈ samples, x.value ≤ s.value

/-- The tie-break rule of the specification: the time is the timestamp of the sample
with the smallest index among those holding the maximum value. -/
def IsFirstPeakOf (samples : List Sample) (t : Time) : Prop :=
  ∃ i : Fin samples.length,
    (∀ j : Fin samples.length, (samples.get j).value ≤ (samples.get i).value) ∧
    (∀ j : Fin samples.length, j.val < i.val → (samples.get j).value ≠ (samples.get i).value) ∧
    t = (samples.get i).timestamp

/-! ## Example inputs -/

/-- The CPU samples of the specification's end-to-end example, at times 1, 2, 3. -/
def cpuExample : List Sample := [⟨1, 10⟩, ⟨2, 50⟩, ⟨3, 30⟩]

/-- The network samples of the specification's end-to-end example, at times 1, 2. -/
def netExample : List Sample := [⟨1, 1024⟩, ⟨2, 2048⟩]

/-- A single idle sample: value 0 at time 5. -/
def idleExample : List Sample := [⟨5, 0⟩]

/-- Two idle samples: value 0 at times 1 and 2. -/
def idleTieExample : List Sample := [⟨1, 0⟩, ⟨2, 0⟩]

/-- Three samples whose maximum 50 is held at times 2 and 3. -/
def tieExample : List Sample := [⟨1, 10⟩, ⟨2, 50⟩, ⟨3, 50⟩]

/-- Stand-in leaf encoders for the examples: an integer value is written in decimal (any
other as numerator/denominator), a time as its quoted nanosecond count. -/
def exampleEncoders : JSONEncoders :=
  { float := fun q =>
      if q.den = 1 then toString q.num else toString q.num ++ "/" ++ toString q.den
    time := fun t => some ("\"" ++ toString t ++ "\"") }

/-- A world whose clock reads `1000 * k` at its `k`-th reading, whose configuration loader
returns `cfg`, and whose backend answers `cpu` to a `CPUUtilization` request and `net` to
any other. -/
def exampleWorld (cfg : Except String Config) (cpu net : Except String (List Datapoint)) :
    World :=
  { now := fun k => 1000 * (k : Int)
    loadDefaultAWSConfig := cfg
    send := fun _ _ input => if input.MetricName = "CPUUtilization" then cpu else net }

/-- The world of the end-to-end example. -/
def okWorld : World :=
  exampleWorld (Except.ok { Region := "" })
    (Except.ok (cpuExample.map Sample.cpuDatapoint))
    (Except.ok (netExample.map Sample.netDatapoint))

/-- A world in which the CPU query succeeds with no datapoint at all. -/
def noCpuDataWorld : World :=
  exampleWorld (Except.ok { Region := "" })
    (Except.ok [])
    (Except.ok (netExample.map Sample.netDatapoint))

/-- A world in which the configuration cannot be loaded. -/
def noConfigWorld : World :=
  exampleWorld (Except.error "no credentials")
    (Except.ok (cpuExample.map Sample.cpuDatapoint))
    (Except.ok (netExample.map Sample.netDatapoint))

theorem peakScan_fst (samples : List Sample) (p : ℚ) (t : Time) :
    (peakScan samples (p, t)).1 = List.foldl max p (samples.map Sample.value) := by
  induction samples generalizing p t with
  | nil => rfl
  | cons s rest ih =>
    simp only [peakScan, List.map_cons, List.foldl_cons]
    by_cases h : p < s.value
    · rw [if_pos h, ih, max_eq_right (le_of_lt h)]
    · rw [if_neg h, ih, max_eq_left (not_lt.mp h)]

theorem peakScan_cases (samples : List Sample) (p : ℚ) (t : Time) :
    (peakScan samples (p, t) = (p, t) ∧ ∀ x ∈ samples, x.value ≤ p) ∨
    (∃ pre s post, samples = pre ++ s :: post ∧ p < s.value ∧
      (∀ x ∈ pre, x.value < s.value) ∧ (∀ x ∈ post, x.value ≤ s.value) ∧
      peakScan samples (p, t) = (s.value, s.timestamp)) := by
  induction samples generalizing p t with
  | nil => left; simp [peakScan]
  | cons s rest ih =>
    by_cases h : p < s.value
    · simp only [peakScan, if_pos h]
      right
      rcases ih s.value s.timestamp with ⟨heq, hle⟩ | ⟨pre, s1, post, hsplit, hlt, hpre, hpost, heq⟩
      · exact ⟨[], s, rest, rfl, h, by simp, hle, heq⟩
      · refine ⟨s :: pre, s1, post, by simp [hsplit], lt_trans h hlt, ?_, hpost, heq⟩
        intro x hx
        rcases List.mem_cons.mp hx with rfl | hx
        · exact hlt
        · exact hpre x hx
    · simp only [peakScan, if_neg h]
      rcases ih p t with ⟨heq, hle⟩ | ⟨pre, s1, post, hsplit, hlt, hpre, hpost, heq⟩
      · left
        refine ⟨heq, ?_⟩
        intro x hx
        rcases List.mem_cons.mp hx with rfl | hx
        · exact not_lt.mp h
        · exact hle x hx
      · right
        refine ⟨s :: pre, s1, post, by simp [hsplit], hlt, ?_, hpost, heq⟩
        intro x hx
        rcases List.mem_cons.mp hx with rfl | hx
        · exact lt_of_le_of_lt (not_lt.mp h) hlt
        · exact hpre x hx

theorem getCPULoop_samples (samples : List Sample) (g p : ℚ) (t : Time) (a : Float64) :
    getCPULoop (samples.map Sample.cpuDatapoint)
        (Float64.fin g, { Perc := Float64.fin p, Time := t, Avg := a }) =
      Outcome.done (Float64.fin (g + sumValues samples),
        { Perc := Float64.fin (peakScan samples (p, t)).1,
          Time := (peakScan samples (p, t)).2, Avg := a }) := by
  induction samples generalizing g p t with
  | nil => simp [getCPULoop, peakScan, sumValues]
  | cons s rest ih =>
    simp only [List.map_cons, getCPULoop, Sample.cpuDatapoint, Float64.add, Float64.gt,
      peakScan, sumValues, List.sum_cons]
    by_cases h : p < s.value
    · simp [h, ih, sumValues, add_assoc]
    · simp [h, ih, sumValues, add_assoc]

theorem getNETLoop_samples (samples : List Sample) (g p : ℚ) (t : Time) :
    getNETLoop (samples.map Sample.netDatapoint)
        { Max := Float64.fin p, Time := t, Total := Float64.fin g } =
      Outcome.done
        { Max := Float64.fin (peakScan samples (p, t)).1,
          Time := (peakScan samples (p, t)).2,
          Total := Float64.fin (g + sumValues samples) } := by
  induction samples generalizing g p t with
  | nil => simp [getNETLoop, peakScan, sumValues]
  | cons s rest ih =>
    simp only [List.map_cons, getNETLoop, Sample.netDatapoint, Float64.add, Float64.gt,
      peakScan, sumValues, List.sum_cons]
    by_cases h : p < s.value
    · simp [h, ih, sumValues, add_assoc]
    · simp [h, ih, sumValues, add_assoc]

theorem getCPUReduce_samples (samples : List Sample) :
    getCPUReduce (samples.map Sample.cpuDatapoint) =
      Outcome.done
        { Perc := Float64.fin (peakScan samples (0, zeroTime)).1,
          Time := (peakScan samples (0, zeroTime)).2,
          Avg := Float64.div (Float64.fin (sumValues samples))
            (Float64.ofLen samples.length) } := by
  unfold getCPUReduce
  rw [Float64.zero, cpuMax.zero, Float64.zero, getCPULoop_samples]
  simp

theorem getNETReduce_samples (samples : List Sample) :
    getNETReduce (samples.map Sample.netDatapoint) =
      Outcome.done
        { Max := Float64.fin (peakScan samples (0, zeroTime)).1,
          Time := (peakScan samples (0, zeroTime)).2,
          Total := Float64.fin (sumValues samples) } := by
  unfold getNETReduce
  rw [netPeak.zero, Float64.zero, getNETLoop_samples]
  simp

theorem peakScan_of_pos (samples : List Sample) (hpos : ∃ s ∈ samples, 0 < s.value) :
    ∃ pre s post, samples = pre ++ s :: post ∧ 0 < s.value ∧
      (∀ x ∈ pre, x.value < s.value) ∧ (∀ x ∈ post, x.value ≤ s.value) ∧
      peakScan samples (0, zeroTime) = (s.value, s.timestamp) := by
  rcases peakScan_cases samples 0 zeroTime with ⟨_, hle⟩ | h
  · obtain ⟨s, hs, h0⟩ := hpos
    exact absurd (hle s hs) (not_le.mpr h0)
  · exact h

theorem peakScan_of_nonpos (samples : List Sample) (h : ∀ s ∈ samples, ¬ 0 < s.value) :
    peakScan samples (0, zeroTime) = (0, zeroTime) := by
  rcases peakScan_cases samples 0 zeroTime with ⟨heq, _⟩ | ⟨pre, s, post, hsplit, h0, _⟩
  · exact heq
  · exact absurd h0 (h s (by simp [hsplit]))

theorem isPeakOf_of_split (pre post : List Sample) (s : Sample)
    (hpre : ∀ x ∈ pre, x.value < s.value) (hpost : ∀ x ∈ post, x.value ≤ s.value) :
    IsPeakOf (pre ++ s :: post) (Float64.fin s.value) s.timestamp := by
  refine ⟨s, by simp, rfl, rfl, ?_⟩
  intro x hx
  rcases List.mem_append.mp hx with hx | hx
  · exact le_of_lt (hpre x hx)
  · rcases List.mem_cons.mp hx with rfl | hx
    · exact le_refl _
    · exact hpost x hx

theorem isFirstPeakOf_of_split (pre post : List Sample) (s : Sample)
    (hpre : ∀ x ∈ pre, x.value < s.value) (hpost : ∀ x ∈ post, x.value ≤ s.value) :
    IsFirstPeakOf (pre ++ s :: post) s.timestamp := by
  have hlen : pre.length < (pre ++ s :: post).length := by simp
  have hget : (pre ++ s :: post).get ⟨pre.length, hlen⟩ = s := by
    rw [List.get_eq_getElem, List.getElem_append_right (le_refl _)]
    simp
  refine ⟨⟨pre.length, hlen⟩, ?_, ?_, ?_⟩
  · intro j
    rw [hget]
    have hmem : (pre ++ s :: post).get j ∈ pre ++ s :: post := List.get_mem _ _ _
    rcases List.mem_append.mp hmem with hx | hx
    · exact le_of_lt (hpre _ hx)
    · rcases List.mem_cons.mp hx with hx | hx
      · rw [hx]
      · exact hpost _ hx
  · intro j hj
    rw [hget]
    have hj1 : j.val < pre.length := hj
    have hmem : (pre ++ s :: post).get j ∈ pre := by
      rw [List.get_eq_getElem, List.getElem_append_left hj1]
      exact List.getElem_mem _
    exact ne_of_lt (hpre _ hmem)
  · rw [hget]

theorem Float64.gt_self (a : Float64) : Float64.gt a a = false := by
  cases a <;> simp [Float64.gt]

/-! ## The claims on the reductions -/

/-- C1, as stated, fails: for the non-empty sequence holding the single sample of value 0
at time 5, both reductions return the peak value 0 with the zero time, which is the
timestamp of no sample of the sequence. -/
theorem peak_rule_fails_on_idle_sample :
    idleExample ≠ [] ∧
    getCPUReduce (idleExample.map Sample.cpuDatapoint) =
      Outcome.done { Perc := Float64.fin 0, Time := 0, Avg := Float64.fin 0 } ∧
    getNETReduce (idleExample.map Sample.netDatapoint) =
      Outcome.done { Max := Float64.fin 0, Time := 0, Total := Float64.fin 0 } ∧
    ¬ IsPeakOf idleExample (Float64.fin 0) 0 := by
  refine ⟨by simp [idleExample], ?_, ?_, ?_⟩
  · rw [getCPUReduce_samples]
    simp [idleExample, peakScan, sumValues, zeroTime, Float64.div, Float64.ofLen]
  · rw [getNETReduce_samples]
    simp [idleExample, peakScan, sumValues, zeroTime]
  · rintro ⟨s, hs, _, ht, _⟩
    simp [idleExample] at hs
    subst hs
    simp at ht

/-- C1, amended: for every sample sequence with at least one value strictly greater than
0, the peak computed by the reduction of getCPU (and likewise of getNET) has its value
field equal to the maximum value among the samples and its Time field equal to the
timestamp of a sample of the sequence holding that maximum. -/
theorem peak_rule_of_positive_sample (samples : List Sample)
    (hpos : ∃ s ∈ samples, 0 < s.value) :
    (∃ c, getCPUReduce (samples.map Sample.cpuDatapoint) = Outcome.done c ∧
      IsPeakOf samples c.Perc c.Time) ∧
    (∃ n, getNETReduce (samples.map Sample.netDatapoint) = Outcome.done n ∧
      IsPeakOf samples n.Max n.Time) := by
  obtain ⟨pre, s, post, hsplit, _, hpre, hpost, heq⟩ := peakScan_of_pos samples hpos
  have hpeak : IsPeakOf samples (Float64.fin s.value) s.timestamp := by
    rw [hsplit]
    exact isPeakOf_of_split pre post s hpre hpost
  refine ⟨⟨_, getCPUReduce_samples samples, ?_⟩, ⟨_, getNETReduce_samples samples, ?_⟩⟩
  · simpa [heq] using hpeak
  · simpa [heq] using hpeak

/-- Witness of C1 amended on the end-to-end example: CPU samples 10, 50, 30 give the
peak 50 at the second sample's time. -/
theorem peak_rule_of_positive_sample_witness :
    (∃ s ∈ cpuExample, 0 < s.value) ∧
    ((∃ c, getCPUReduce (cpuExample.map Sample.cpuDatapoint) = Outcome.done c ∧
      IsPeakOf cpuExample c.Perc c.Time) ∧
    (∃ n, getNETReduce (cpuExample.map Sample.netDatapoint) = Outcome.done n ∧
      IsPeakOf cpuExample n.Max n.Time)) :=
  ⟨⟨⟨1, 10⟩, by simp [cpuExample], by norm_num⟩,
   peak_rule_of_positive_sample cpuExample ⟨⟨1, 10⟩, by simp [cpuExample], by norm_num⟩⟩

/-- C5, as stated, fails: the two samples at times 1 and 2 share the maximum value 0, and
both reductions return the zero time, not the timestamp 1 of the first of them. -/
theorem first_occurrence_fails_on_idle_tie :
    getCPUReduce (idleTieExample.map Sample.cpuDatapoint) =
      Outcome.done { Perc := Float64.fin 0, Time := 0, Avg := Float64.fin 0 } ∧
    getNETReduce (idleTieExample.map Sample.netDatapoint) =
      Outcome.done { Max := Float64.fin 0, Time := 0, Total := Float64.fin 0 } ∧
    ¬ IsFirstPeakOf idleTieExample 0 := by
  refine ⟨?_, ?_, ?_⟩
  · rw [getCPUReduce_samples]
    simp [idleTieExample, peakScan, sumValues, zeroTime, Float64.div, Float64.ofLen]
  · rw [getNETReduce_samples]
    simp [idleTieExample, peakScan, sumValues, zeroTime]
  · rintro ⟨⟨i, hi⟩, _, _, ht⟩
    simp only [idleTieExample, List.length_cons, List.length_nil] at hi
    have hcases : i = 0 ∨ i = 1 := by omega
    rcases hcases with rfl | rfl
    · simp [idleTieExample] at ht
    · simp [idleTieExample] at ht

/-- C5, amended: for every sample sequence whose maximum value is strictly greater than 0
(some sample is positive), whether one or several samples hold the maximum, the peak Time
returned by the reduction of getCPU (and of getNET) is the timestamp of the sample with
the smallest index among those holding the maximum value; and a sample whose value
equals the recorded peak never replaces it: the loop step leaves the record unchanged. -/
theorem first_occurrence_wins (samples : List Sample)
    (hpos : ∃ s ∈ samples, 0 < s.value) :
    (∃ c, getCPUReduce (samples.map Sample.cpuDatapoint) = Outcome.done c ∧
      IsFirstPeakOf samples c.Time) ∧
    (∃ n, getNETReduce (samples.map Sample.netDatapoint) = Outcome.done n ∧
      IsFirstPeakOf samples n.Time) ∧
    (∀ (dp : Datapoint) (rest : List Datapoint) (gavg : Float64) (max : cpuMax),
      dp.Average = some max.Perc →
      getCPULoop (dp :: rest) (gavg, max) =
        getCPULoop rest (Float64.add gavg max.Perc, max)) ∧
    (∀ (dp : Datapoint) (rest : List Datapoint) (max : netPeak),
      dp.Maximum = some max.Max →
      getNETLoop (dp :: rest) max =
        getNETLoop rest { max with Total := Float64.add max.Total max.Max }) := by
  obtain ⟨pre, s, post, hsplit, _, hpre, hpost, heq⟩ := peakScan_of_pos samples hpos
  have hfirst : IsFirstPeakOf samples s.timestamp := by
    rw [hsplit]
    exact isFirstPeakOf_of_split pre post s hpre hpost
  refine ⟨⟨_, getCPUReduce_samples samples, ?_⟩, ⟨_, getNETReduce_samples samples, ?_⟩,
    ?_, ?_⟩
  · simpa [heq] using hfirst
  · simpa [heq] using hfirst
  · intro dp rest gavg max hdp
    simp [getCPULoop, hdp, Float64.gt_self]
  · intro dp rest max hdp
    simp [getNETLoop, hdp, Float64.gt_self]

/-- Witness of C5 amended: in the samples 10, 50, 50 the maximum 50 is shared and
positive. -/
theorem first_occurrence_wins_witness :
    (∃ s ∈ tieExample, 0 < s.value) ∧
    (∃ c, getCPUReduce (tieExample.map Sample.cpuDatapoint) = Outcome.done c ∧
      IsFirstPeakOf tieExample c.Time) :=
  ⟨⟨⟨1, 10⟩, by simp [tieExample], by norm_num⟩,
   (first_occurrence_wins tieExample ⟨⟨1, 10⟩, by simp [tieExample], by norm_num⟩).1⟩

/-- C10: for every sample sequence, empty or not, the peak value returned by the reduction
of getCPU (and of getNET) is the maximum of 0 and all sample values; when no sample value
is strictly greater than 0 the peak value is 0 and the peak Time is the zero time. -/
theorem peak_is_max_with_zero (samples : List Sample) :
    ∃ c n, getCPUReduce (samples.map Sample.cpuDatapoint) = Outcome.done c ∧
      getNETReduce (samples.map Sample.netDatapoint) = Outcome.done n ∧
      c.Perc = Float64.fin (List.foldl max 0 (samples.map Sample.value)) ∧
      n.Max = Float64.fin (List.foldl max 0 (samples.map Sample.value)) ∧
      ((∀ s ∈ samples, ¬ 0 < s.value) →
        c.Perc = Float64.fin 0 ∧ c.Time = zeroTime ∧
        n.Max = Float64.fin 0 ∧ n.Time = zeroTime) := by
  refine ⟨_, _, getCPUReduce_samples samples, getNETReduce_samples samples, ?_, ?_, ?_⟩
  · simp [peakScan_fst]
  · simp [peakScan_fst]
  · intro h
    simp [peakScan_of_nonpos samples h]

/-- Witness of C10 on two idle samples: the peak is 0 at the zero time. -/
theorem peak_is_max_with_zero_witness :
    (∀ s ∈ idleTieExample, ¬ 0 < s.value) ∧
    ∃ c n, getCPUReduce (idleTieExample.map Sample.cpuDatapoint) = Outcome.done c ∧
      getNETReduce (idleTieExample.map Sample.netDatapoint) = Outcome.done n ∧
      c.Perc = Float64.fin 0 ∧ c.Time = zeroTime ∧
      n.Max = Float64.fin 0 ∧ n.Time = zeroTime := by
  have h0 : ∀ s ∈ idleTieExample, ¬ 0 < s.value := by
    intro s hs
    simp [idleTieExample] at hs
    rcases hs with rfl | rfl <;> simp
  obtain ⟨c, n, hc, hn, _, _, himp⟩ := peak_is_max_with_zero idleTieExample
  exact ⟨h0, c, n, hc, hn, himp h0⟩

/-! ## Lemmas on the handler -/

theorem lambdaHandler_of_results (enc : JSONEncoders) (w : World) (cfg : Config)
    (cdps ndps : List Datapoint) (c : cpuMax) (n : netPeak)
    (hcfg : w.loadDefaultAWSConfig = Except.ok cfg)
    (hcpu : w.send [] (newClient cfg) (cpuInput (w.now 1) (w.now 2)) = Except.ok cdps)
    (hnet : w.send [cpuInput (w.now 1) (w.now 2)] (newClient cfg)
      (netInput (w.now 3) (w.now 4)) = Except.ok ndps)
    (hc : getCPUReduce cdps = Outcome.done c) (hn : getNETReduce ndps = Outcome.done n) :
    lambdaHandler enc w =
      (Outcome.done (respond enc c n),
        { clockReads := 6,
          sent := [cpuInput (w.now 1) (w.now 2), netInput (w.now 3) (w.now 4)] }) := by
  simp [lambdaHandler, hcfg, getCPU, getNET, timeNow, sendRequest, RunState.init, hcpu, hnet,
    hc, hn]

theorem asyncJoin_eq (sched : Nat → Bool) (c : cpuMax) (n : netPeak) :
    asyncJoin sched c n = some (c, n) := by
  cases h : sched 0 <;> simp [asyncJoin, joinLoop, selectStep, h]

theorem jsonMarshal_nan_avg (enc : JSONEncoders) (p : Float64) (t : Time) (n : netPeak) :
    jsonMarshal enc { CPU := { Perc := p, Time := t, Avg := Float64.NaN }, Net := n } = none := by
  have hnan : marshalFloat enc Float64.NaN = none := rfl
  simp only [jsonMarshal, marshalCpuMax, hnan]
  cases marshalFloat enc p <;> cases enc.time t <;> rfl

theorem getCPUReduce_nil :
    getCPUReduce [] =
      Outcome.done { Perc := Float64.fin 0, Time := zeroTime, Avg := Float64.NaN } := by
  simp [getCPUReduce, getCPULoop, cpuMax.zero, Float64.zero, Float64.div, Float64.ofLen]

/-! ## The claims on the empty sequence -/

/-- C4, as stated, fails: on the empty sequence the reduction of getCPU raises no error, it
computes 0 / float64(0) and returns a summary whose Avg is NaN, not a number; that summary
is one json.Marshal rejects, so that the response built from it has an empty Body. -/
theorem empty_cpu_series_yields_nan :
    getCPUReduce [] =
      Outcome.done { Perc := Float64.fin 0, Time := 0, Avg := Float64.NaN } ∧
    Float64.div Float64.zero (Float64.ofLen ([] : List Datapoint).length) = Float64.NaN ∧
    Float64.isFinite Float64.NaN = false ∧
    jsonMarshal exampleEncoders
      { CPU := { Perc := Float64.fin 0, Time := 0, Avg := Float64.NaN },
        Net := netPeak.zero } = none ∧
    respond exampleEncoders { Perc := Float64.fin 0, Time := 0, Avg := Float64.NaN }
      netPeak.zero = ({ Body := "", StatusCode := 200 }, none) := by
  refine ⟨getCPUReduce_nil, ?_, rfl, jsonMarshal_nan_avg _ _ _ _, ?_⟩
  · simp [Float64.div, Float64.zero, Float64.ofLen]
  · simp [respond, jsonMarshal_nan_avg]

/-- C4, amended: for the empty sample sequence the reduction of getNET yields the zero
summary (Max 0, zero Time, Total 0); the reduction of getCPU raises no error, divides 0 by
float64(0) unchecked and returns Perc 0, the zero Time and Avg = NaN; and lambdaHandler
passes that summary to json.Marshal, which rejects it: when the configuration loads, the
CPU query returns no datapoint and the network query succeeds, the handler returns a nil
error and a response with StatusCode 200 and an empty Body. -/
theorem empty_series_behaviour :
    getNETReduce [] = Outcome.done netPeak.zero ∧
    getCPUReduce [] =
      Outcome.done { Perc := Float64.fin 0, Time := zeroTime, Avg := Float64.NaN } ∧
    (∀ (enc : JSONEncoders) (w : World) (cfg : Config) (ndps : List Datapoint) (n : netPeak),
      w.loadDefaultAWSConfig = Except.ok cfg →
      w.send [] (newClient cfg) (cpuInput (w.now 1) (w.now 2)) = Except.ok [] →
      w.send [cpuInput (w.now 1) (w.now 2)] (newClient cfg)
        (netInput (w.now 3) (w.now 4)) = Except.ok ndps →
      getNETReduce ndps = Outcome.done n →
      (lambdaHandler enc w).1 = Outcome.done ({ Body := "", StatusCode := 200 }, none)) := by
  refine ⟨rfl, getCPUReduce_nil, ?_⟩
  intro enc w cfg ndps n hcfg hcpu hnet hn
  rw [lambdaHandler_of_results enc w cfg [] ndps _ n hcfg hcpu hnet getCPUReduce_nil hn]
  simp [respond, jsonMarshal_nan_avg]

/-- Witness of C4 amended: the world whose CPU query returns no datapoint. -/
theorem empty_series_behaviour_witness :
    noCpuDataWorld.loadDefaultAWSConfig = Except.ok { Region := "" } ∧
    (lambdaHandler exampleEncoders noCpuDataWorld).1 =
      Outcome.done ({ Body := "", StatusCode := 200 }, none) :=
  ⟨rfl, empty_series_behaviour.2.2 exampleEncoders noCpuDataWorld { Region := "" }
    (netExample.map Sample.netDatapoint) _ rfl rfl rfl
    (getNETReduce_samples netExample)⟩

/-! ## The claims on the handler -/

/-- C7: if configuration loading fails, lambdaHandler returns the empty response together
with the error "unable to load SDK config, " followed by the loader's message, and no
metric query has been issued. -/
theorem config_failure_returns_error (enc : JSONEncoders) (w : World) (e : String)
    (herr : w.loadDefaultAWSConfig = Except.error e) :
    lambdaHandler enc w =
      (Outcome.done (lambdaRes.zero, some ("unable to load SDK config, " ++ e)),
        RunState.init) ∧
    (lambdaHandler enc w).2.sent.length = 0 := by
  simp [lambdaHandler, herr, RunState.init]

/-- Witness of C7: the world whose configuration loader fails with "no credentials". -/
theorem config_failure_returns_error_witness :
    noConfigWorld.loadDefaultAWSConfig = Except.error "no credentials" ∧
    lambdaHandler exampleEncoders noConfigWorld =
      (Outcome.done (lambdaRes.zero, some ("unable to load SDK config, " ++ "no credentials")),
        RunState.init) ∧
    (lambdaHandler exampleEncoders noConfigWorld).2.sent.length = 0 :=
  ⟨rfl, config_failure_returns_error exampleEncoders noConfigWorld "no credentials" rfl⟩

/-- C9: once getCPU and getNET have produced their summaries from fixed CPU and network
sample sequences, the concurrent block (two goroutines joined by two channel receives)
ends, under every schedule of the two receives, with the same cpures and netres as the
sequential block, and so with the same response (the same Body, byte for byte) as the
one lambdaHandler returns. -/
theorem strategies_agree (enc : JSONEncoders) (sched : Nat → Bool) (w : World)
    (cfg : Config) (cs ns : List Sample)
    (hcfg : w.loadDefaultAWSConfig = Except.ok cfg)
    (hcpu : w.send [] (newClient cfg) (cpuInput (w.now 1) (w.now 2)) =
      Except.ok (cs.map Sample.cpuDatapoint))
    (hnet : w.send [cpuInput (w.now 1) (w.now 2)] (newClient cfg)
      (netInput (w.now 3) (w.now 4)) = Except.ok (ns.map Sample.netDatapoint)) :
    ∃ c n, getCPUReduce (cs.map Sample.cpuDatapoint) = Outcome.done c ∧
      getNETReduce (ns.map Sample.netDatapoint) = Outcome.done n ∧
      asyncJoin sched c n = some (c, n) ∧
      (lambdaHandler enc w).1 = Outcome.done (respond enc c n) ∧
      (asyncJoin sched c n).map (fun r => respond enc r.1 r.2) = some (respond enc c n) := by
  refine ⟨_, _, getCPUReduce_samples cs, getNETReduce_samples ns, asyncJoin_eq _ _ _, ?_, ?_⟩
  · rw [lambdaHandler_of_results enc w cfg _ _ _ _ hcfg hcpu hnet (getCPUReduce_samples cs)
      (getNETReduce_samples ns)]
  · rw [asyncJoin_eq]
    rfl

/-- Witness of C9: the world of the end-to-end example, with the schedule that lets the
network receive fire first. -/
theorem strategies_agree_witness :
    okWorld.loadDefaultAWSConfig = Except.ok { Region := "" } ∧
    ∃ c n, getCPUReduce (cpuExample.map Sample.cpuDatapoint) = Outcome.done c ∧
      getNETReduce (netExample.map Sample.netDatapoint) = Outcome.done n ∧
      asyncJoin (fun _ => false) c n = some (c, n) ∧
      (lambdaHandler exampleEncoders okWorld).1 = Outcome.done (respond exampleEncoders c n) ∧
      (asyncJoin (fun _ => false) c n).map (fun r => respond exampleEncoders r.1 r.2) =
        some (respond exampleEncoders c n) :=
  ⟨rfl, strategies_agree exampleEncoders (fun _ => false) okWorld { Region := "" }
    cpuExample netExample rfl rfl rfl⟩

end GoLambdaCloudwatch
